import Mathlib

/-!
Shallow embedding of `src/osi/src/thread.c` (the worker-thread module of the
osi layer), together with theorems about creation and cleanup, posting,
dispatch order, the shutdown drain, registration and unregistration.

Modelling conventions:
* heap allocation is modelled by explicit success oracles (one `Bool` per
  allocation site) and a `Ledger` of currently live resources;
* C function pointers are identified by `Nat` ids; executing a work item
  means appending it to an observation log;
* C strings are `List Nat` byte sequences; a buffer is read back as a C
  string by taking its bytes up to the first NUL byte.
-/

/-- `work_item_t` (thread.c lines 48-51): a function pointer plus an opaque
context, both modelled as identifiers. -/
structure work_item_t where
  func : Nat
  context : Nat
  deriving DecidableEq, Repr

/-- `WORK_QUEUE_CAPACITY` (thread.c line 69). -/
def WORK_QUEUE_CAPACITY : Nat := 128

/-- Observable outcome of the post-stop drain in `run_thread`
(thread.c lines 221-228). -/
structure DrainResult where
  /-- Items executed by the drain, in execution order. -/
  executed : List work_item_t
  /-- The item returned by the final `fixed_queue_try_dequeue` when the loop
  exits with `count > WORK_QUEUE_CAPACITY`: it has been removed from the
  queue but is neither executed nor freed. -/
  leaked : Option work_item_t
  /-- Items still sitting in the queue when `run_thread` returns. -/
  remaining : List work_item_t
  /-- Final value of the local `count`. -/
  count : Nat
  deriving DecidableEq, Repr

/-- The drain loop of `run_thread` (thread.c lines 221-228).  The C code
dequeues an item first and only then tests `item && count <= CAPACITY`; so
when the counter bound trips with a non-NULL item in hand, that item has
already left the queue but is never executed. -/
def drain_loop : List work_item_t → Nat → DrainResult
  | [], count => ⟨[], none, [], count⟩
  | i :: rest, count =>
    if count ≤ WORK_QUEUE_CAPACITY then
      let r := drain_loop rest (count + 1)
      ⟨i :: r.executed, r.leaked, r.remaining, r.count⟩
    else
      ⟨[], some i, rest, count⟩

/-- The whole drain as entered from `run_thread` (count starts at 0). -/
def run_thread_drain (q : List work_item_t) : DrainResult :=
  drain_loop q 0

/-- The diagnostic of thread.c lines 230-231: emitted when the drain counter
exceeded the queue capacity. -/
def drain_diagnostic (q : List work_item_t) : Prop :=
  WORK_QUEUE_CAPACITY < (run_thread_drain q).count

instance (q : List work_item_t) : Decidable (drain_diagnostic q) := by
  unfold drain_diagnostic
  infer_instance

/-- Complete characterization of the drain loop, parametric in the entry
counter: with budget `WORK_QUEUE_CAPACITY + 1 - count` it executes that many
items, leaks the next dequeued item if any, and leaves the rest queued. -/
theorem drain_loop_spec (q : List work_item_t) (count : Nat)
    (h : count ≤ WORK_QUEUE_CAPACITY + 1) :
    (drain_loop q count).executed = q.take (WORK_QUEUE_CAPACITY + 1 - count) ∧
    (drain_loop q count).leaked = (q.drop (WORK_QUEUE_CAPACITY + 1 - count)).head? ∧
    (drain_loop q count).remaining = q.drop (WORK_QUEUE_CAPACITY + 2 - count) ∧
    (drain_loop q count).count = count + min q.length (WORK_QUEUE_CAPACITY + 1 - count) := by
  induction q generalizing count with
  | nil => simp [drain_loop]
  | cons i rest ih =>
    by_cases hc : count ≤ WORK_QUEUE_CAPACITY
    · have h1 : count + 1 ≤ WORK_QUEUE_CAPACITY + 1 := by omega
      obtain ⟨e1, e2, e3, e4⟩ := ih (count + 1) h1
      have hb : WORK_QUEUE_CAPACITY + 1 - count =
          (WORK_QUEUE_CAPACITY + 1 - (count + 1)) + 1 := by omega
      have hb2 : WORK_QUEUE_CAPACITY + 2 - count =
          (WORK_QUEUE_CAPACITY + 2 - (count + 1)) + 1 := by omega
      refine ⟨?_, ?_, ?_, ?_⟩
      · simp [drain_loop, hc, e1, hb]
      · simp [drain_loop, hc, e2, hb]
      · simp [drain_loop, hc, e3, hb2]
      · simp [drain_loop, hc, e4, hb]
        omega
    · have hcount : count = WORK_QUEUE_CAPACITY + 1 := by omega
      subst hcount
      simp [drain_loop]

/-- Modelled from the spec: the header `thread.h` defining `THREAD_NAME_MAX`
is not under src/; the spec says only that names are bounded-length
identifiers.  The theorems below are derived from lemmas parametric in the
bound, so no result depends on this concrete value. -/
def THREAD_NAME_MAX : Nat := 16

/-- The `n` bytes `strncpy(dst, src, n)` writes: the bytes of `src` before its
first NUL, truncated to `n`, then zero padding up to exactly `n` bytes. -/
def strncpy_write (src : List Nat) (n : Nat) : List Nat :=
  let s := (src.takeWhile (fun c => c != 0)).take n
  s ++ List.replicate (n - s.length) 0

/-- `strncpy(dst, src, n)` over a whole buffer: the first `n` bytes are
replaced, the bytes past `n` keep their old contents. -/
def strncpy_buf (dst src : List Nat) (n : Nat) : List Nat :=
  strncpy_write src n ++ dst.drop n

/-- `struct thread_t` (thread.c lines 34-40).  The `pthread` and `tid`
fields are opaque OS handles and carry no information the claims need; the
`reactor` and `work_queue` pointer fields are tracked as
allocated/not-allocated flags (their contents live in the `World` and trace
states below). -/
structure thread_t where
  /-- Contents of the `char name[THREAD_NAME_MAX + 1]` buffer. -/
  name : List Nat
  /-- The `reactor` field is non-NULL. -/
  reactor : Bool
  /-- The `work_queue` field is non-NULL. -/
  work_queue : Bool
  deriving DecidableEq, Repr

/-- `thread_name` (thread.c lines 155-158): returns `thread->name`, which the
caller reads as a NUL-terminated C string. -/
def thread_name (t : thread_t) : List Nat :=
  t.name.takeWhile (fun c => c != 0)

/-- `thread_post` (thread.c lines 124-143), acting on the work queue.
`alloc_ok` is the oracle for the `malloc` of the `work_item_t`: when it
fails, `thread_post` logs and returns false with the queue untouched;
otherwise it enqueues the item wrapping exactly `func` and `context` and
returns true. -/
def thread_post (q : List work_item_t) (func context : Nat) (alloc_ok : Bool) :
    Bool × List work_item_t :=
  if !alloc_ok then
    (false, q)
  else
    (true, q ++ [⟨func, context⟩])

/-- The heap resources `thread_new` allocates. -/
inductive Resource
  | control_block
  | reactor
  | work_queue
  | start_sem
  deriving DecidableEq, Repr

/-- Multiset of currently live (allocated, not yet freed) resources. -/
abbrev Ledger := List Resource

/-- A successful allocation adds the resource to the ledger. -/
def alloc (r : Resource) (l : Ledger) : Ledger := r :: l

/-- Freeing removes one occurrence of the resource from the ledger. -/
def release (r : Resource) (l : Ledger) : Ledger := l.erase r

/-- Which allocations succeed during one call to `thread_new`, and whether
the spawned thread's `prctl(PR_SET_NAME, ...)` fails (`prctl_errno` is the
value of `errno` after a failing call, `0` meaning the call succeeded). -/
structure AllocEnv where
  calloc_ok : Bool
  reactor_new_ok : Bool
  queue_new_ok : Bool
  semaphore_new_ok : Bool
  prctl_errno : Nat
  deriving DecidableEq, Repr

/-- What the self-initialization prefix of `run_thread` (thread.c lines
199-207) does before the reactor loop is reached. -/
structure RunStartResult where
  /-- Final value of the shared `start->error` slot. -/
  error : Nat
  /-- `semaphore_post(start->start_sem)` was executed. -/
  posted_sem : Bool
  /-- Control reached `reactor_register`/`reactor_start` (the run loop). -/
  entered_loop : Bool
  deriving DecidableEq, Repr

/-- Self-initialization of the spawned thread (thread.c lines 199-207): on
`prctl` failure it records `errno` in the shared slot, signals the
rendezvous and returns without entering the run loop; on success it signals
the rendezvous and proceeds to the run loop. -/
def run_thread_start (prctl_errno : Nat) : RunStartResult :=
  if prctl_errno = 0 then
    ⟨0, true, true⟩
  else
    ⟨prctl_errno, true, false⟩

/-- The `error:` cleanup block of `thread_new` (thread.c lines 104-110):
`if (ret)` guards the pair of frees, and both `fixed_queue_free` and
`reactor_free` are no-ops on a NULL field, so exactly the allocated
resources among queue/reactor/control block are released. -/
def thread_new_error_cleanup (ret : Option thread_t) (l : Ledger) : Ledger :=
  match ret with
  | none => l
  | some t =>
    let l1 := if t.work_queue then release .work_queue l else l
    let l2 := if t.reactor then release .reactor l1 else l1
    release .control_block l2

/-- Everything observable about one call to `thread_new`. -/
structure NewOutcome where
  /-- The returned handle (`none` models returning NULL). -/
  handle : Option thread_t
  /-- Resources still live when `thread_new` returns.  On success this does
  not include the start semaphore, which is freed before returning; the
  handle owns the listed resources. -/
  ledger : Ledger
  /-- The spawned thread entered the run loop. -/
  entered_run_loop : Bool
  /-- Final value of the shared `start.error` slot. -/
  start_error : Nat
  deriving DecidableEq, Repr

/-- `thread_new` (thread.c lines 71-111): allocate the control block, the
reactor, the work queue and the start semaphore in order, bailing to the
`error:` cleanup on any failure; then copy the name with `strncpy`, spawn
`run_thread`, wait on the rendezvous, free the semaphore, and fail (again
via `error:`) if the spawned thread recorded an error. -/
def thread_new (name : List Nat) (env : AllocEnv) : NewOutcome :=
  if !env.calloc_ok then
    ⟨none, thread_new_error_cleanup none [], false, 0⟩
  else
    let l0 := alloc .control_block []
    let ret0 : thread_t := ⟨List.replicate (THREAD_NAME_MAX + 1) 0, false, false⟩
    if !env.reactor_new_ok then
      ⟨none, thread_new_error_cleanup (some ret0) l0, false, 0⟩
    else
      let l1 := alloc .reactor l0
      let ret1 : thread_t := { ret0 with reactor := true }
      if !env.queue_new_ok then
        ⟨none, thread_new_error_cleanup (some ret1) l1, false, 0⟩
      else
        let l2 := alloc .work_queue l1
        let ret2 : thread_t := { ret1 with work_queue := true }
        if !env.semaphore_new_ok then
          ⟨none, thread_new_error_cleanup (some ret2) l2, false, 0⟩
        else
          let l3 := alloc .start_sem l2
          let ret3 : thread_t :=
            { ret2 with name := strncpy_buf ret2.name name THREAD_NAME_MAX }
          let rt := run_thread_start env.prctl_errno
          let l4 := release .start_sem l3
          if rt.error = 0 then
            ⟨some ret3, l4, rt.entered_loop, 0⟩
          else
            ⟨none, thread_new_error_cleanup (some ret3) l4, rt.entered_loop, rt.error⟩

/-- State of one live worker thread and its observable environment: the
control block, the pending work queue, the log of executed work items, the
live-resource ledger, and whether `reactor_stop` has been requested. -/
structure World where
  t : thread_t
  queue : List work_item_t
  log : List work_item_t
  ledger : Ledger
  stop_requested : Bool
  deriving DecidableEq, Repr

/-- `thread_stop` (thread.c lines 145-148): only calls `reactor_stop`; it
does not drain, block, or touch any other state. -/
def thread_stop (w : World) : World :=
  { w with stop_requested := true }

/-- `pthread_join` as observed from `thread_free`: the reactor loop exits
(stop was requested), then `run_thread` performs the post-stop drain
(thread.c lines 221-228) before the thread terminates. -/
def join_thread (w : World) : World :=
  let r := run_thread_drain w.queue
  { w with queue := r.remaining, log := w.log ++ r.executed }

/-- `thread_free` (thread.c lines 113-122).  `isNull` models calling it on a
NULL handle: the guard at line 114 returns immediately.  Otherwise it stops
the reactor, joins the thread (running the drain), then
`fixed_queue_free(..., free)` discards any still-queued items unexecuted,
`reactor_free` releases the reactor, and `free` releases the control
block. -/
def thread_free (isNull : Bool) (w : World) : World :=
  if isNull then
    w
  else
    let w1 := thread_stop w
    let w2 := join_thread w1
    let w3 := { w2 with queue := [], ledger := release .work_queue w2.ledger }
    let w4 := { w3 with ledger := release .reactor w3.ledger }
    { w4 with ledger := release .control_block w4.ledger }

/-- `work_queue_read_cb` (thread.c lines 236-243), acting on the queue and
the execution log: dequeue exactly one item and execute it.  The reactor
invokes this callback only when the queue's dequeue fd is readable, i.e.
the queue is non-empty; on an empty queue no callback fires, modelled as
the identity. -/
def work_queue_read_cb (q log : List work_item_t) :
    List work_item_t × List work_item_t :=
  match q with
  | [] => ([], log)
  | i :: rest => (rest, log ++ [i])

/-- Events of the producer/consumer protocol: a `thread_post` from any
caller thread (with its allocation oracle), or one reactor dispatch of
`work_queue_read_cb` on the owning thread. -/
inductive ThreadEvent
  | post (func context : Nat) (alloc_ok : Bool)
  | dispatch
  deriving DecidableEq, Repr

/-- Trace state: the queue, the log of executed items in execution order,
and the list of successfully posted items in the order they became visible
to the consumer. -/
structure TraceState where
  queue : List work_item_t
  log : List work_item_t
  posted : List work_item_t
  deriving DecidableEq, Repr

/-- One step of the protocol.  All dispatches run on the single owning
execution context (the reactor loop of `run_thread`), so they are totally
ordered among themselves and with the callbacks they execute. -/
def trace_step (st : TraceState) : ThreadEvent → TraceState
  | .post f c ok =>
    let r := thread_post st.queue f c ok
    { st with
      queue := r.2
      posted := st.posted ++ (if r.1 then [⟨f, c⟩] else []) }
  | .dispatch =>
    let r := work_queue_read_cb st.queue st.log
    { st with queue := r.1, log := r.2 }

/-- Run a whole event sequence from the freshly created thread's state. -/
def run_trace (events : List ThreadEvent) : TraceState :=
  events.foldl trace_step ⟨[], [], []⟩

/-- Function-pointer id for `register_with_reactor_cb` (thread.c 245-255),
the callback that performs the reactor registration on the owning thread
and then frees the `reactor_register_arg_t`. -/
def register_with_reactor_cb_id : Nat := 0

/-- Function-pointer id for `unregister_with_reactor_cb` (thread.c 257-267),
the callback that performs the reactor unregistration on the owning thread
and then posts the rendezvous semaphore. -/
def unregister_with_reactor_cb_id : Nat := 1

/-- `thread_register` (thread.c lines 160-169).  `arg_alloc_ok` is the
oracle for the `malloc` of the `reactor_register_arg_t`: line 165 writes
through that pointer with no NULL check, so on failure the call does not
return normally (`none`, undefined behaviour).  Otherwise the result of
`thread_post` is discarded; the C return type is `void`, so no branch
conveys any error to the caller.  The returned pair is the queue after the
call and whether the request record leaked (`thread_post` failed, so
`register_with_reactor_cb` will never run and nothing ever frees it). -/
def thread_register (q : List work_item_t) (arg_alloc_ok item_alloc_ok : Bool)
    (objId : Nat) : Option (List work_item_t × Bool) :=
  if !arg_alloc_ok then
    none
  else
    let r := thread_post q register_with_reactor_cb_id objId item_alloc_ok
    some (r.2, !r.1)

/-- The spec's error taxonomy value for allocation failure. -/
inductive UnregErr
  | ResourceExhausted
  deriving DecidableEq, Repr

/-- Everything observable about one call to `thread_unregister`. -/
structure UnregOutcome where
  /-- Work queue after the call. -/
  queue : List work_item_t
  /-- The ALOGE diagnostic at thread.c line 182 was emitted. -/
  logged_sem_error : Bool
  /-- The unregistration request was posted to the work queue. -/
  posted_request : Bool
  /-- The caller blocked on `semaphore_wait(arg.unregistered_sem)`. -/
  blocked_on_sem : Bool
  deriving DecidableEq, Repr

/-- `thread_unregister` (thread.c lines 171-189).  `sem_alloc_ok` is the
oracle for `semaphore_new(0)`: on failure the function logs and returns at
once, posting nothing.  Otherwise it posts the unregistration request
(discarding `thread_post`'s result) and blocks on the rendezvous
semaphore. -/
def thread_unregister (q : List work_item_t) (sem_alloc_ok item_alloc_ok : Bool)
    (objId : Nat) : UnregOutcome :=
  if !sem_alloc_ok then
    ⟨q, true, false, false⟩
  else
    let r := thread_post q unregister_with_reactor_cb_id objId item_alloc_ok
    ⟨r.2, false, r.1, true⟩

/-- The error value a call to `thread_unregister` yields to the calling
thread.  The C function's return type is `void` (thread.c line 171): the
call expression conveys no value on any path, so no outcome is ever
distinguishable through it. -/
def thread_unregister_caller_result (_o : UnregOutcome) : Option UnregErr :=
  none

/-- Modelled from the spec: the result channel the spec describes for
`unregister` — "Failure to allocate the rendezvous signal is reported to
the caller ... (fails with `ResourceExhausted`)" — as a caller-visible
result depending on the semaphore allocation.  Stated only to be compared
with the source's `thread_unregister_caller_result`. -/
def thread_unregister_spec_result (sem_alloc_ok : Bool) : Option UnregErr :=
  if sem_alloc_ok then none else some UnregErr.ResourceExhausted

/-! ## Helper lemmas -/

theorem takeWhile_bne_eq_self (s : List Nat) (h : ∀ x ∈ s, x ≠ 0) :
    s.takeWhile (fun c => c != 0) = s := by
  induction s with
  | nil => rfl
  | cons a u ih =>
    have ha : (a != 0) = true := by
      simpa using h a (by simp)
    simp only [List.takeWhile_cons, ha, if_true]
    rw [ih (fun x hx => h x (by simp [hx]))]

theorem takeWhile_bne_append (s u : List Nat) (h : ∀ x ∈ s, x ≠ 0) :
    (s ++ 0 :: u).takeWhile (fun c => c != 0) = s := by
  induction s with
  | nil => simp [List.takeWhile_cons]
  | cons a v ih =>
    have ha : (a != 0) = true := by
      simpa using h a (by simp)
    simp only [List.cons_append, List.takeWhile_cons, ha, if_true]
    rw [ih (fun x hx => h x (by simp [hx]))]

theorem drop_replicate_self (n a : Nat) :
    (List.replicate (n + 1) a).drop n = [a] := by
  induction n with
  | zero => rfl
  | succ m ih => simpa [List.replicate_succ] using ih

theorem strncpy_write_length (src : List Nat) (n : Nat) :
    (strncpy_write src n).length = n := by
  simp [strncpy_write]

theorem strncpy_zero_buf (src : List Nat) (n : Nat) (h : ∀ x ∈ src, x ≠ 0) :
    strncpy_buf (List.replicate (n + 1) 0) src n
      = src.take n
        ++ List.replicate (n - (src.take n).length + 1) 0 := by
  unfold strncpy_buf strncpy_write
  rw [takeWhile_bne_eq_self src h, drop_replicate_self]
  rw [List.replicate_succ']
  simp [List.append_assoc]

theorem strncpy_zero_buf_length (src : List Nat) (n : Nat) :
    (strncpy_buf (List.replicate (n + 1) 0) src n).length = n + 1 := by
  unfold strncpy_buf
  rw [drop_replicate_self]
  simp [strncpy_write_length]

theorem zero_mem_strncpy_zero_buf (src : List Nat) (n : Nat) :
    (0 : Nat) ∈ strncpy_buf (List.replicate (n + 1) 0) src n := by
  unfold strncpy_buf
  rw [drop_replicate_self]
  exact List.mem_append_right _ (by simp)

theorem cstr_of_strncpy_zero_buf (src : List Nat) (n : Nat)
    (h : ∀ x ∈ src, x ≠ 0) :
    (strncpy_buf (List.replicate (n + 1) 0) src n).takeWhile (fun c => c != 0)
      = src.take n := by
  rw [strncpy_zero_buf src n h, List.replicate_succ]
  exact takeWhile_bne_append _ _ (fun x hx => h x (List.take_subset n src hx))

theorem trace_step_inv (st : TraceState) (ev : ThreadEvent)
    (h : st.log ++ st.queue = st.posted) :
    (trace_step st ev).log ++ (trace_step st ev).queue
      = (trace_step st ev).posted := by
  cases ev with
  | post f c ok =>
    cases ok <;> simp [trace_step, thread_post, ← h, List.append_assoc]
  | dispatch =>
    cases hq : st.queue with
    | nil =>
      rw [hq] at h
      simp only [trace_step, work_queue_read_cb, hq]
      simpa using h
    | cons i rest =>
      rw [hq] at h
      simp only [trace_step, work_queue_read_cb, hq]
      simpa [List.append_assoc] using h

theorem run_trace_inv_aux (events : List ThreadEvent) (st : TraceState)
    (h : st.log ++ st.queue = st.posted) :
    (events.foldl trace_step st).log ++ (events.foldl trace_step st).queue
      = (events.foldl trace_step st).posted := by
  induction events generalizing st with
  | nil => simpa using h
  | cons e es ih => exact ih (trace_step st e) (trace_step_inv st e h)

theorem thread_new_handle_eq (name : List Nat) (env : AllocEnv) (t : thread_t)
    (h : (thread_new name env).handle = some t) :
    t = ⟨strncpy_buf (List.replicate (THREAD_NAME_MAX + 1) 0) name
          THREAD_NAME_MAX, true, true⟩ := by
  obtain ⟨c, r, q, s, e⟩ := env
  cases c <;> cases r <;> cases q <;> cases s <;> by_cases he : e = 0 <;>
      simp [thread_new, run_thread_start, thread_new_error_cleanup, alloc,
        release, he] at h
  exact h.symm

/-! ## Claim theorems -/

/-- Claim C1, counterexample: with 130 work items queued when the post-stop
drain runs, not every already-queued item is executed — the drain executes
only the first 129, and the 130th item is dequeued by the final
`fixed_queue_try_dequeue` without ever being executed. -/
theorem run_thread_drain_incomplete_past_capacity :
    (run_thread_drain (List.replicate 130 ⟨0, 0⟩)).executed
      ≠ List.replicate 130 (⟨0, 0⟩ : work_item_t) ∧
    (run_thread_drain (List.replicate 130 ⟨0, 0⟩)).executed.length = 129 ∧
    (run_thread_drain (List.replicate 130 ⟨0, 0⟩)).leaked
      = some (⟨0, 0⟩ : work_item_t) := by
  obtain ⟨e1, e2, e3, e4⟩ :=
    drain_loop_spec (List.replicate 130 (⟨0, 0⟩ : work_item_t)) 0 (by omega)
  have hex : (run_thread_drain (List.replicate 130 ⟨0, 0⟩)).executed
      = List.replicate 129 (⟨0, 0⟩ : work_item_t) := by
    rw [run_thread_drain, e1]
    simp [WORK_QUEUE_CAPACITY, List.take_replicate]
  have hlk : (run_thread_drain (List.replicate 130 ⟨0, 0⟩)).leaked
      = some (⟨0, 0⟩ : work_item_t) := by
    rw [run_thread_drain, e2]
    have : (List.replicate 130 (⟨0, 0⟩ : work_item_t)).drop
        (WORK_QUEUE_CAPACITY + 1 - 0) = List.replicate 1 ⟨0, 0⟩ := by
      simp [WORK_QUEUE_CAPACITY, List.drop_replicate]
    rw [this]
    rfl
  refine ⟨?_, ?_, hlk⟩
  · intro hEq
    have := congrArg List.length (hex.symm.trans hEq)
    simp at this
  · rw [hex]
    simp

/-- Claim C1 (amended): the post-stop drain always terminates (it is a total
function of the queue contents) and executes queued items in FIFO order, but
only up to `WORK_QUEUE_CAPACITY + 1` of them: the diagnostic is emitted
exactly when at least `WORK_QUEUE_CAPACITY + 1` items were encountered, and
items beyond the first `WORK_QUEUE_CAPACITY + 1` are not executed — the next
dequeued item is dropped unexecuted and the rest remain in the queue. -/
theorem run_thread_drain_characterization (q : List work_item_t) :
    (run_thread_drain q).executed = q.take (WORK_QUEUE_CAPACITY + 1) ∧
    (drain_diagnostic q ↔ WORK_QUEUE_CAPACITY + 1 ≤ q.length) ∧
    (run_thread_drain q).leaked = (q.drop (WORK_QUEUE_CAPACITY + 1)).head? ∧
    (run_thread_drain q).remaining = q.drop (WORK_QUEUE_CAPACITY + 2) := by
  obtain ⟨e1, e2, e3, e4⟩ := drain_loop_spec q 0 (by omega)
  refine ⟨by simpa using e1, ?_, by simpa using e2, by simpa using e3⟩
  unfold drain_diagnostic
  rw [run_thread_drain, e4]
  constructor <;> intro h <;> omega

/-- Claim C2, counterexample: at a concrete input where the rendezvous
semaphore allocation fails, the failure *does* occur (the diagnostic of
line 182 fires) yet the caller-visible result of `thread_unregister` is not
the `ResourceExhausted` result the claim describes — the C function returns
`void`, so the call reports nothing to the calling thread. -/
theorem thread_unregister_failure_unreported :
    (thread_unregister [] false true 7).logged_sem_error = true ∧
    thread_unregister_caller_result (thread_unregister [] false true 7)
      ≠ thread_unregister_spec_result false := by
  decide

/-- Claim C2 (amended): when `thread_unregister` fails to allocate its
rendezvous semaphore it emits a diagnostic and returns immediately — no
unregistration request is posted, the caller does not block, and the work
queue (hence the existing registration) is untouched — and no error value
reaches the caller, the function being `void`. -/
theorem thread_unregister_sem_alloc_failure (q : List work_item_t)
    (item_ok : Bool) (objId : Nat) :
    thread_unregister q false item_ok objId = ⟨q, true, false, false⟩ ∧
    thread_unregister_caller_result (thread_unregister q false item_ok objId)
      = none := by
  simp [thread_unregister, thread_unregister_caller_result]

/-- Claim C3: `thread_free` on a thread whose queue holds at most
`WORK_QUEUE_CAPACITY` not-yet-executed items causes every one of them to be
executed, in order, by the post-stop drain before the thread terminates, and
the queue is empty afterwards. -/
theorem thread_free_drains_all_up_to_capacity (w : World)
    (h : w.queue.length ≤ WORK_QUEUE_CAPACITY) :
    (thread_free false w).log = w.log ++ w.queue ∧
    (thread_free false w).queue = [] := by
  obtain ⟨e1, e2, e3, e4⟩ := drain_loop_spec w.queue 0 (by omega)
  have htake : w.queue.take (WORK_QUEUE_CAPACITY + 1 - 0) = w.queue :=
    List.take_of_length_le (by omega)
  constructor
  · simp [thread_free, join_thread, thread_stop, run_thread_drain, e1, htake]
    omega
  · simp [thread_free, join_thread, thread_stop]

/-- Claim C3 witness: three posted items all execute in order on `free`. -/
theorem thread_free_drains_all_up_to_capacity_witness :
    (List.length [(⟨1, 0⟩ : work_item_t), ⟨2, 0⟩, ⟨3, 0⟩]
        ≤ WORK_QUEUE_CAPACITY) ∧
    ((thread_free false
        ⟨⟨[], true, true⟩, [⟨1, 0⟩, ⟨2, 0⟩, ⟨3, 0⟩], [], [], false⟩).log
      = [] ++ [⟨1, 0⟩, ⟨2, 0⟩, ⟨3, 0⟩] ∧
     (thread_free false
        ⟨⟨[], true, true⟩, [⟨1, 0⟩, ⟨2, 0⟩, ⟨3, 0⟩], [], [], false⟩).queue
      = []) :=
  ⟨by decide,
   thread_free_drains_all_up_to_capacity
     ⟨⟨[], true, true⟩, [⟨1, 0⟩, ⟨2, 0⟩, ⟨3, 0⟩], [], [], false⟩ (by decide)⟩

/-- Claim C4: over every interleaving of successful/failed posts and
reactor dispatches of `work_queue_read_cb`, the log of executed work items
extended by the still-queued items equals the sequence of successfully
posted items in visibility order.  Hence executed callbacks form a prefix
of the post order — FIFO, each exactly once — and every dispatch runs on
the single owning execution context (all `dispatch` events are steps of the
one consumer), so no two callbacks overlap. -/
theorem posted_items_execute_in_order (events : List ThreadEvent) :
    (run_trace events).log ++ (run_trace events).queue
      = (run_trace events).posted := by
  unfold run_trace
  exact run_trace_inv_aux events ⟨[], [], []⟩ rfl

/-- Claim C5: `thread_new` either returns a fully initialized handle — its
reactor and work queue allocated, the returned ledger being exactly the
three resources the handle owns (the start semaphore already released) — or
returns NULL with every resource it had allocated already released. -/
theorem thread_new_no_leak (name : List Nat) (env : AllocEnv) :
    (thread_new name env).ledger
      = (if (thread_new name env).handle.isSome then
          [Resource.work_queue, Resource.reactor, Resource.control_block]
        else []) ∧
    (thread_new name env).handle.all (fun t => t.reactor && t.work_queue)
      = true := by
  obtain ⟨c, r, q, s, e⟩ := env
  cases c <;> cases r <;> cases q <;> cases s <;> by_cases he : e = 0 <;>
    simp [thread_new, run_thread_start, thread_new_error_cleanup, alloc,
      release, he, List.erase_cons]

/-- Claim C6: when every allocation succeeds but the spawned thread's
`prctl(PR_SET_NAME, ...)` fails with errno `e ≠ 0`, the spawned thread
records `e` in the shared error slot, signals the rendezvous, and does not
enter the run loop; the creating thread observes the error and `thread_new`
returns NULL. -/
theorem thread_new_prctl_failure (name : List Nat) (e : Nat) (he : e ≠ 0) :
    (run_thread_start e).error = e ∧
    (run_thread_start e).posted_sem = true ∧
    (run_thread_start e).entered_loop = false ∧
    (thread_new name ⟨true, true, true, true, e⟩).start_error = e ∧
    (thread_new name ⟨true, true, true, true, e⟩).handle = none ∧
    (thread_new name ⟨true, true, true, true, e⟩).entered_run_loop = false := by
  simp [run_thread_start, thread_new, thread_new_error_cleanup, alloc,
    release, he]

/-- Claim C6 witness: instantiated at errno 5. -/
theorem thread_new_prctl_failure_witness :
    (5 : Nat) ≠ 0 ∧
    ((run_thread_start 5).error = 5 ∧
     (run_thread_start 5).posted_sem = true ∧
     (run_thread_start 5).entered_loop = false ∧
     (thread_new [] ⟨true, true, true, true, 5⟩).start_error = 5 ∧
     (thread_new [] ⟨true, true, true, true, 5⟩).handle = none ∧
     (thread_new [] ⟨true, true, true, true, 5⟩).entered_run_loop = false) :=
  ⟨by decide, thread_new_prctl_failure [] 5 (by decide)⟩

/-- Claim C7: `thread_post` returns false exactly when the work-item
allocation fails, and in that case leaves the queue untouched; otherwise it
appends exactly one item wrapping `func` and `context` to the queue and
returns true, with no other effect. -/
theorem thread_post_false_iff_alloc_fails (q : List work_item_t)
    (func context : Nat) (ok : Bool) :
    thread_post q func context ok
      = (ok, if ok then q ++ [⟨func, context⟩] else q) := by
  cases ok <;> simp [thread_post]

/-- Claim C8: `thread_free` applied to a NULL handle returns immediately
without modifying any state. -/
theorem thread_free_null_noop (w : World) : thread_free true w = w := rfl

/-- Claim C10: both allocation-failure branches of `thread_register` are
reachable and silent.  If the `reactor_register_arg_t` malloc fails, the
NULL result is written through with no check (the call does not return
normally).  If the posted work item's malloc fails, `thread_post`'s false
result is discarded: the call returns normally with the queue unchanged —
the registration request is dropped and the allocated request record leaks
(only `register_with_reactor_cb` would have freed it) — and the `void`
return surfaces no error.  On the success path the request is enqueued. -/
theorem thread_register_silent_failure (q : List work_item_t) (objId : Nat) :
    thread_register q false true objId = none ∧
    thread_register q true false objId = some (q, true) ∧
    thread_register q true true objId
      = some (q ++ [⟨register_with_reactor_cb_id, objId⟩], false) := by
  simp [thread_register, thread_post]

/-- Claim C9: for every NUL-free name accepted by `thread_new`, the stored
name buffer is the full `THREAD_NAME_MAX + 1` bytes, always contains a NUL
terminator, and `thread_name` reads back exactly the first
`THREAD_NAME_MAX` characters of the name (longer names silently truncated),
hence at most `THREAD_NAME_MAX` characters; no subsequent operation writes
the control block, so `thread_stop` and the join-time drain preserve it. -/
theorem thread_name_nul_terminated_truncation (name : List Nat)
    (env : AllocEnv) (t : thread_t) (w : World)
    (hname : ∀ c ∈ name, c ≠ 0)
    (h : (thread_new name env).handle = some t) :
    t.name.length = THREAD_NAME_MAX + 1 ∧
    (0 : Nat) ∈ t.name ∧
    thread_name t = name.take THREAD_NAME_MAX ∧
    (thread_name t).length ≤ THREAD_NAME_MAX ∧
    (thread_stop w).t.name = w.t.name ∧
    (join_thread w).t.name = w.t.name := by
  have ht := thread_new_handle_eq name env t h
  subst ht
  refine ⟨?_, ?_, ?_, ?_, rfl, rfl⟩
  · exact strncpy_zero_buf_length name THREAD_NAME_MAX
  · exact zero_mem_strncpy_zero_buf name THREAD_NAME_MAX
  · exact cstr_of_strncpy_zero_buf name THREAD_NAME_MAX hname
  · rw [show thread_name
        ⟨strncpy_buf (List.replicate (THREAD_NAME_MAX + 1) 0) name
          THREAD_NAME_MAX, true, true⟩
        = name.take THREAD_NAME_MAX from
        cstr_of_strncpy_zero_buf name THREAD_NAME_MAX hname]
    simp

/-- Claim C9 witness: instantiated at the two-character name `[104, 105]`
and a concrete world. -/
theorem thread_name_nul_terminated_truncation_witness :
    (∀ c ∈ [(104 : Nat), 105], c ≠ 0) ∧
    ((thread_new [104, 105] ⟨true, true, true, true, 0⟩).handle
      = some ⟨strncpy_buf (List.replicate (THREAD_NAME_MAX + 1) 0) [104, 105]
          THREAD_NAME_MAX, true, true⟩) ∧
    ((⟨strncpy_buf (List.replicate (THREAD_NAME_MAX + 1) 0) [104, 105]
          THREAD_NAME_MAX, true, true⟩ : thread_t).name.length
        = THREAD_NAME_MAX + 1 ∧
     (0 : Nat) ∈ (⟨strncpy_buf (List.replicate (THREAD_NAME_MAX + 1) 0)
          [104, 105] THREAD_NAME_MAX, true, true⟩ : thread_t).name ∧
     thread_name ⟨strncpy_buf (List.replicate (THREAD_NAME_MAX + 1) 0)
          [104, 105] THREAD_NAME_MAX, true, true⟩
        = [104, 105].take THREAD_NAME_MAX ∧
     (thread_name ⟨strncpy_buf (List.replicate (THREAD_NAME_MAX + 1) 0)
          [104, 105] THREAD_NAME_MAX, true, true⟩).length ≤ THREAD_NAME_MAX ∧
     (thread_stop ⟨⟨[], true, true⟩, [], [], [], false⟩).t.name
        = (⟨⟨[], true, true⟩, [], [], [], false⟩ : World).t.name ∧
     (join_thread ⟨⟨[], true, true⟩, [], [], [], false⟩).t.name
        = (⟨⟨[], true, true⟩, [], [], [], false⟩ : World).t.name) :=
  ⟨by decide, by decide,
   thread_name_nul_terminated_truncation [104, 105] ⟨true, true, true, true, 0⟩
     ⟨strncpy_buf (List.replicate (THREAD_NAME_MAX + 1) 0) [104, 105]
        THREAD_NAME_MAX, true, true⟩
     ⟨⟨[], true, true⟩, [], [], [], false⟩ (by decide) (by decide)⟩
